import Mathlib

/-!
Shallow embedding of the Extra-Hours Report Approval workflow of app.py
(models ExtraReport / ExtraRequest / ExtraReportItem / ExtraReportAudit /
ExtraReportDecision and the handlers admin_extra_report_create,
admin_extra_report_delete, the POST branch of admin_extra_report_view,
extra_report_public, and the helpers _auto_accept_if_due,
_extra_report_total_minutes, _extra_audit, _save_signature_png).

Timestamps are modelled as Nat seconds since an arbitrary epoch.
Request-origin metadata (ip, user_agent) on audit entries, file-system
side effects, e-mail delivery and HTML rendering are outside the model:
no claim mentions them and the source treats them as best-effort
(broad try/except around every such call).
-/

namespace ExtraReports

/-- Report status column of ExtraReport (app.py line 233):
DRAFT / SENT / APPROVED / REJECTED / COMMENTED / APPROVED_AUTO. -/
inductive Status where
  | DRAFT
  | SENT
  | APPROVED
  | REJECTED
  | COMMENTED
  | APPROVED_AUTO
deriving DecidableEq, Repr

/-- Status column of ExtraRequest (app.py line 202): NEW / INCLUDED / CANCELED. -/
inductive ReqStatus where
  | NEW
  | INCLUDED
  | CANCELED
deriving DecidableEq, Repr

/-- actor_type column of ExtraReportAudit (app.py line 724): admin, public, system. -/
inductive ActorType where
  | admin
  | publicActor
  | system
deriving DecidableEq, Repr

/-- Language of the public page: default Norwegian, optional Polish (?lang=pl). -/
inductive Lang where
  | no
  | pl
deriving DecidableEq, Repr

/-- The tr helper defined inside extra_report_public. -/
def tr (lang : Lang) (noTxt plTxt : String) : String :=
  match lang with
  | .pl => plTxt
  | .no => noTxt

/-- rep.status.lower() as used for the audit action code in extra_report_public. -/
def Status.lower : Status → String
  | .DRAFT => "draft"
  | .SENT => "sent"
  | .APPROVED => "approved"
  | .REJECTED => "rejected"
  | .COMMENTED => "commented"
  | .APPROVED_AUTO => "approved_auto"

/-- ExtraRequest (app.py lines 193-206): one extra-hour claim (LineItem). -/
structure ExtraRequest where
  id : Nat
  projectId : Nat
  userName : String
  workDate : Nat
  minutes : Int
  description : Option String
  status : ReqStatus
deriving DecidableEq, Repr

/-- ExtraReportItem (app.py lines 260-271): immutable snapshot inside a report. -/
structure ExtraReportItem where
  requestId : Nat
  userName : String
  workDate : Nat
  minutes : Int
  description : Option String
deriving DecidableEq, Repr

/-- ExtraReportAttachment (app.py lines 711-716), reduced to its stored file name. -/
structure Attachment where
  storedFilename : String
deriving DecidableEq, Repr

/-- ExtraReport (app.py lines 224-257). Items and attachments are embedded,
mirroring the cascade relationship (all, delete-orphan). -/
structure ExtraReport where
  id : Nat
  projectId : Nat
  recipientEmail : Option String
  token : Option String
  status : Status
  sentAt : Option Nat
  decidedAt : Option Nat
  decidedNote : Option String
  reportText : Option String
  totalMinutesOverride : Option Int
  items : List ExtraReportItem
  attachments : List Attachment
deriving DecidableEq, Repr

/-- ExtraReportAudit (app.py lines 719-729), without the best-effort
request-origin metadata columns (ip, user_agent). -/
structure AuditEntry where
  reportId : Nat
  createdAt : Nat
  actorType : ActorType
  actorName : Option String
  action : String
  details : Option String
deriving DecidableEq, Repr

/-- ExtraReportDecision (app.py lines 731-740). decided_name is the column
user_name; the constant bookkeeping columns work_date (set to today) and
minutes (always set to 0 by the public handler) are omitted. -/
structure DecisionRecord where
  reportId : Nat
  decidedAt : Nat
  decidedName : String
  decidedNote : Option String
  signaturePng : Option String
deriving DecidableEq, Repr

/-- _extra_audit (app.py lines 5604-5621): append one audit row. -/
def extra_audit (log : List AuditEntry) (now : Nat) (rep : ExtraReport)
    (action : String) (actorType : ActorType) (actorName : Option String)
    (details : Option String) : List AuditEntry :=
  log ++ [{ reportId := rep.id, createdAt := now, actorType := actorType,
            actorName := actorName, action := action, details := details }]

/-- The 7-day auto-escalation window (timedelta(days=7)), in seconds. -/
def escalation_window : Nat := 7 * 86400

/-- _auto_accept_if_due (app.py lines 741-758). Returns the updated report,
the updated audit log, and the Bool the source function returns. -/
def auto_accept_if_due (now : Nat) (rep : ExtraReport) (log : List AuditEntry) :
    ExtraReport × List AuditEntry × Bool :=
  match rep.status, rep.sentAt with
  | .SENT, some t =>
    if t + escalation_window ≤ now then
      let rep1 : ExtraReport := { rep with status := .APPROVED_AUTO }
      let log1 := extra_audit log now rep1 "auto_approved" .system none
        (some "7 days elapsed")
      let rep2 : ExtraReport := { rep1 with
        decidedAt := some now,
        decidedNote := some (rep1.decidedNote.getD "Auto-zaakceptowano po 7 dniach.") }
      (rep2, log1, true)
    else (rep, log, false)
  | _, _ => (rep, log, false)

/-- _extra_report_total_minutes (app.py lines 702-708). -/
def extra_report_total_minutes (rep : ExtraReport) : Int :=
  match rep.totalMinutesOverride with
  | some o => o
  | none => (rep.items.map (fun it => it.minutes)).sum

/-- Abstraction of the signature_data data URL received by _save_signature_png:
whether it contains a comma, whether the header part contains image/png,
whether base64-decoding succeeds, the byte length of the decoded payload,
and the (random) file name it would be stored under. -/
structure DataUrl where
  hasComma : Bool
  headerIsPng : Bool
  decodeOk : Bool
  decodedLen : Nat
  storedName : String
deriving DecidableEq, Repr

/-- The blank-signature byte threshold of _save_signature_png (app.py line 5641). -/
def sig_blank_threshold : Nat := 1200

/-- _save_signature_png (app.py lines 5623-5649): returns the stored file name,
or none when the data URL is malformed, not a PNG, fails to decode, or the
decoded payload is below the blank-signature threshold (the file is then
removed again). -/
def save_signature_png (d : DataUrl) : Option String :=
  if !d.hasComma then none
  else if !d.headerIsPng then none
  else if !d.decodeOk then none
  else if d.decodedLen < sig_blank_threshold then none
  else some d.storedName

/-- Result of admin_extra_report_create. The three error outcomes are the
flash-and-redirect branches (no ids selected, no matching requests found,
no eligible requests left); created carries the new DRAFT report and the
updated request store. -/
inductive CreateResult where
  | noIdsSelected
  | notFound
  | noEligible
  | created (rep : ExtraReport) (store : List ExtraRequest)
deriving DecidableEq, Repr

/-- The snapshot taken of one surviving ExtraRequest (app.py lines 4577-4584). -/
def snapshot_item (r : ExtraRequest) : ExtraReportItem :=
  { requestId := r.id, userName := r.userName, workDate := r.workDate,
    minutes := r.minutes, description := r.description }

/-- admin_extra_report_create (app.py lines 4526-4590).
projectIdField models the form project_id after the int() parse: none when
the field is absent, equals "all", or fails to parse. recipientEmail and
reportText are the stripped-or-None form fields, defaultContact the result
of _default_project_contact_email, newId the id the database would assign. -/
def admin_extra_report_create (store : List ExtraRequest)
    (projectIdField : Option Nat) (recipientEmail reportText : Option String)
    (ids : List Nat) (defaultContact : Option String) (newId : Nat) :
    CreateResult :=
  if ids = [] then .noIdsSelected
  else
    match store.filter (fun r => decide (r.id ∈ ids)) with
    | [] => .notFound
    | first :: rest =>
      let pid := projectIdField.getD first.projectId
      let survivors := (first :: rest).filter
        (fun r => decide (r.projectId = pid ∧ r.status ≠ ReqStatus.INCLUDED))
      if survivors = [] then .noEligible
      else
        let recipient := match recipientEmail with
          | some e => some e
          | none => defaultContact
        let rep : ExtraReport :=
          { id := newId, projectId := pid, recipientEmail := recipient,
            token := none, status := .DRAFT, sentAt := none, decidedAt := none,
            decidedNote := none, reportText := reportText,
            totalMinutesOverride := none,
            items := survivors.map snapshot_item, attachments := [] }
        let store2 := store.map (fun r =>
          if r.id ∈ ids ∧ r.projectId = pid ∧ r.status ≠ ReqStatus.INCLUDED
          then { r with status := ReqStatus.INCLUDED } else r)
        .created rep store2

/-- admin_extra_report_delete (app.py lines 4688-4741). Takes the report being
deleted, the ExtraRequest store, the list of all reports, and the decision
table; returns them updated. The request ids are collected from the report
items with a truthy request_id, each such request is set back to NEW, and the
report is deleted (the cascade removes its embedded items and attachments).
The handler fetches the ExtraReportDecision row into a local variable but
never deletes it, so the decision table is returned unchanged; the audit
table is likewise untouched. -/
def admin_extra_report_delete (rep : ExtraReport) (store : List ExtraRequest)
    (reports : List ExtraReport) (decisions : List DecisionRecord) :
    List ExtraReport × List ExtraRequest × List DecisionRecord :=
  let reqIds := (rep.items.filter (fun it => it.requestId ≠ 0)).map
    (fun it => it.requestId)
  let store2 := store.map (fun r =>
    if r.id ∈ reqIds then { r with status := ReqStatus.NEW } else r)
  let reports2 := reports.filter (fun r => decide (r.id ≠ rep.id))
  (reports2, store2, decisions)

/-- The POST form of admin_extra_report_view: action (form.get falls back to
"save"), the stripped-or-None report_text and recipient_email fields, and
the total_override field after parse_hhmm (none when the field was empty or
parsing raised; some v when it parsed to v minutes). -/
structure AdminForm where
  action : Option String
  reportText : Option String
  recipientEmail : Option String
  totalOverride : Option Int
deriving DecidableEq, Repr

/-- The unconditional field updates of the POST branch of
admin_extra_report_view (app.py lines 4760-4773): report_text,
recipient_email and total_minutes_override are overwritten from the form
and committed before any action check. -/
def apply_admin_edit (form : AdminForm) (rep : ExtraReport) : ExtraReport :=
  { rep with reportText := form.reportText,
             recipientEmail := form.recipientEmail,
             totalMinutesOverride := form.totalOverride }

/-- The POST branch of admin_extra_report_view (app.py lines 4744-4868) for a
request without attachment uploads. _auto_accept_if_due runs first, then the
edit is applied and committed; when action is "send" and a recipient is now
present, the token is generated only if absent, status is set to SENT and
sent_at to now. No branch writes an audit entry. freshToken models
secrets.token_hex(32); the assignment to the non-column attribute updated_at
persists nothing and is omitted. Returns the report and the audit log. -/
def admin_extra_report_view_post (now : Nat) (form : AdminForm)
    (freshToken : String) (rep : ExtraReport) (log : List AuditEntry) :
    ExtraReport × List AuditEntry :=
  let a := auto_accept_if_due now rep log
  let rep1 := apply_admin_edit form a.1
  if form.action.getD "save" = "send" then
    match rep1.recipientEmail with
    | none => (rep1, a.2.1)
    | some _ =>
      ({ rep1 with token := some (rep1.token.getD freshToken),
                   status := .SENT, sentAt := some now }, a.2.1)
  else (rep1, a.2.1)

/-- The POST form of extra_report_public: raw action field (None when
missing), stripped-or-None note and sign_name, and the signature_data field
(none when absent or blank). -/
structure PublicForm where
  action : Option String
  note : Option String
  signName : Option String
  signatureData : Option DataUrl
deriving DecidableEq, Repr

/-- The POST branch of extra_report_public (app.py lines 5098-5177).
_auto_accept_if_due runs first; if the (possibly escalated) status is not
SENT the handler only flashes and redirects. Otherwise decided_at and
decided_note are set, the status becomes APPROVED / REJECTED / COMMENTED
(any action other than approve and reject, including a missing one, falls
to the comment branch), a default note is filled in when none was given,
the DecisionRecord is upserted (a blank signature leaves signature_png
untouched), and exactly one audit entry is appended with the lowercased
status as action code. Returns report, decision table and audit log. -/
def extra_report_public_post (lang : Lang) (now : Nat) (form : PublicForm)
    (rep0 : ExtraReport) (decisions : List DecisionRecord)
    (log0 : List AuditEntry) :
    ExtraReport × List DecisionRecord × List AuditEntry :=
  let a := auto_accept_if_due now rep0 log0
  let rep := a.1
  let log := a.2.1
  if rep.status ≠ Status.SENT then (rep, decisions, log)
  else
    let rep1 : ExtraReport := { rep with decidedAt := some now,
                                         decidedNote := form.note }
    let rep2 : ExtraReport :=
      if form.action = some "approve" then
        { rep1 with status := Status.APPROVED, decidedNote := some (rep1.decidedNote.getD (tr lang "Godkjent." "Zaakceptowano.")) }
      else if form.action = some "reject" then
        { rep1 with status := Status.REJECTED, decidedNote := some (rep1.decidedNote.getD (tr lang "Avvist." "Odrzucono.")) }
      else
        { rep1 with status := Status.COMMENTED, decidedNote := some (rep1.decidedNote.getD (tr lang "Kommentarer lagt til." "Dodano uwagi.")) }
    let prev := decisions.find? (fun d => d.reportId == rep2.id)
    let base : DecisionRecord := match prev with
      | some d => d
      | none => { reportId := rep2.id, decidedAt := 0, decidedName := "",
                  decidedNote := none, signaturePng := none }
    let fn := form.signatureData.bind save_signature_png
    let dec2 : DecisionRecord := { base with
      decidedAt := now,
      decidedNote := rep2.decidedNote,
      decidedName := form.signName.getD "",
      signaturePng := match fn with | some f => some f | none => base.signaturePng }
    let decisions2 := match prev with
      | some _ => decisions.map (fun d => if d.reportId = rep2.id then dec2 else d)
      | none => decisions ++ [dec2]
    let log2 := extra_audit log now rep2 rep2.status.lower .publicActor
      form.signName rep2.decidedNote
    (rep2, decisions2, log2)

/-- The escalated report _auto_accept_if_due produces when it fires. -/
def escalated (now : Nat) (rep : ExtraReport) : ExtraReport :=
  { rep with status := Status.APPROVED_AUTO,
             decidedAt := some now,
             decidedNote := some (rep.decidedNote.getD "Auto-zaakceptowano po 7 dniach.") }

/-- The audit entry _auto_accept_if_due appends when it fires. -/
def escalation_entry (now : Nat) (rep : ExtraReport) : AuditEntry :=
  { reportId := rep.id, createdAt := now, actorType := ActorType.system,
    actorName := none, action := "auto_approved", details := some "7 days elapsed" }

theorem auto_accept_of_not_sent (now : Nat) (rep : ExtraReport)
    (log : List AuditEntry) (h : rep.status ≠ Status.SENT) :
    auto_accept_if_due now rep log = (rep, log, false) := by
  unfold auto_accept_if_due
  cases hst : rep.status <;> cases hsa : rep.sentAt <;> simp_all

theorem auto_accept_of_no_sent_at (now : Nat) (rep : ExtraReport)
    (log : List AuditEntry) (h : rep.sentAt = none) :
    auto_accept_if_due now rep log = (rep, log, false) := by
  unfold auto_accept_if_due
  cases hst : rep.status <;> simp_all

theorem auto_accept_of_not_due (now t : Nat) (rep : ExtraReport)
    (log : List AuditEntry) (hsa : rep.sentAt = some t)
    (h : now < t + escalation_window) :
    auto_accept_if_due now rep log = (rep, log, false) := by
  unfold auto_accept_if_due
  cases hst : rep.status <;> simp_all

theorem auto_accept_fired (now t : Nat) (rep : ExtraReport)
    (log : List AuditEntry) (hs : rep.status = Status.SENT)
    (hsa : rep.sentAt = some t) (h : t + escalation_window ≤ now) :
    auto_accept_if_due now rep log =
      (escalated now rep, log ++ [escalation_entry now rep], true) := by
  unfold auto_accept_if_due
  rw [hs, hsa]
  simp [h, hsa, escalated, escalation_entry, extra_audit]

theorem auto_accept_not_fired (now : Nat) (rep : ExtraReport)
    (log : List AuditEntry) (h : (auto_accept_if_due now rep log).2.2 = false) :
    auto_accept_if_due now rep log = (rep, log, false) := by
  by_cases hs : rep.status = Status.SENT
  · cases hsa : rep.sentAt with
    | none => exact auto_accept_of_no_sent_at now rep log hsa
    | some t =>
      by_cases hd : t + escalation_window ≤ now
      · rw [auto_accept_fired now t rep log hs hsa hd] at h
        simp at h
      · exact auto_accept_of_not_due now t rep log hsa (by omega)
  · exact auto_accept_of_not_sent now rep log hs

/-- C3: for a SENT report with sent_at = t, the lazy escalation check of
_auto_accept_if_due fires exactly when now is at or past t + 7 days; before
the boundary the report and the audit log are left unchanged; when it fires
the report becomes APPROVED_AUTO with decided_at set to now and exactly one
audit entry is appended, and any immediately following access is a no-op
that changes no state and appends no duplicate audit entry. -/
theorem C3_escalation_boundary (now t : Nat) (rep : ExtraReport)
    (log : List AuditEntry) (hs : rep.status = Status.SENT)
    (hsa : rep.sentAt = some t) :
    ((auto_accept_if_due now rep log).2.2 = true ↔ t + escalation_window ≤ now)
  ∧ (now < t + escalation_window →
       auto_accept_if_due now rep log = (rep, log, false))
  ∧ (t + escalation_window ≤ now →
       (auto_accept_if_due now rep log).1.status = Status.APPROVED_AUTO
     ∧ (auto_accept_if_due now rep log).1.decidedAt = some now
     ∧ (auto_accept_if_due now rep log).2.1 = log ++ [escalation_entry now rep]
     ∧ ∀ now2 log2,
         auto_accept_if_due now2 (auto_accept_if_due now rep log).1 log2
           = ((auto_accept_if_due now rep log).1, log2, false)) := by
  by_cases hd : t + escalation_window ≤ now
  · rw [auto_accept_fired now t rep log hs hsa hd]
    refine ⟨by simp [hd], by omega, fun _ => ⟨rfl, rfl, rfl, fun now2 log2 => ?_⟩⟩
    exact auto_accept_of_not_sent now2 (escalated now rep) log2 (by simp [escalated])
  · rw [auto_accept_of_not_due now t rep log hsa (by omega)]
    exact ⟨by simp [hd], fun _ => rfl, fun hc => absurd hc hd⟩

/-- A concrete SENT report used by the boundary witness. -/
def w3rep : ExtraReport :=
  { id := 1, projectId := 1, recipientEmail := some "pm@example.com",
    token := some "tok", status := Status.SENT, sentAt := some 0,
    decidedAt := none, decidedNote := none, reportText := none,
    totalMinutesOverride := none, items := [], attachments := [] }

theorem C3_escalation_boundary_witness :
    auto_accept_if_due (7 * 86400 - 1) w3rep [] = (w3rep, [], false)
  ∧ (auto_accept_if_due (7 * 86400 + 1) w3rep []).1.status
      = Status.APPROVED_AUTO := by
  constructor
  · exact (C3_escalation_boundary (7 * 86400 - 1) 0 w3rep [] rfl rfl).2.1
      (by decide)
  · exact ((C3_escalation_boundary (7 * 86400 + 1) 0 w3rep [] rfl rfl).2.2
      (by decide)).1

/-- C8: the reported total minutes equals the total-override whenever it is
set (any value, including 0), and the sum of the item snapshot minutes
otherwise; changing the items of a report whose override is set does not
change the reported total. -/
theorem C8_override_precedence (rep : ExtraReport) :
    (∀ o, rep.totalMinutesOverride = some o → extra_report_total_minutes rep = o)
  ∧ (rep.totalMinutesOverride = none →
       extra_report_total_minutes rep
         = (rep.items.map (fun it => it.minutes)).sum)
  ∧ (∀ items2, rep.totalMinutesOverride.isSome = true →
       extra_report_total_minutes { rep with items := items2 }
         = extra_report_total_minutes rep) := by
  refine ⟨fun o ho => ?_, fun ho => ?_, fun items2 ho => ?_⟩
  · simp [extra_report_total_minutes, ho]
  · simp [extra_report_total_minutes, ho]
  · rcases hx : rep.totalMinutesOverride with _ | o
    · rw [hx] at ho; simp at ho
    · simp [extra_report_total_minutes, hx]

/-- A concrete report with override 0 and one 45-minute item. -/
def w8rep : ExtraReport :=
  { id := 2, projectId := 1, recipientEmail := none, token := none,
    status := Status.DRAFT, sentAt := none, decidedAt := none,
    decidedNote := none, reportText := none, totalMinutesOverride := some 0,
    items := [{ requestId := 1, userName := "A", workDate := 0,
                minutes := 45, description := none }],
    attachments := [] }

theorem C8_override_precedence_witness :
    extra_report_total_minutes w8rep = 0
  ∧ extra_report_total_minutes { w8rep with items := [] }
      = extra_report_total_minutes w8rep := by
  refine ⟨(C8_override_precedence w8rep).1 0 rfl, ?_⟩
  exact (C8_override_precedence w8rep).2.2 [] rfl

theorem public_post_of_not_sent (lang : Lang) (now : Nat) (form : PublicForm)
    (rep : ExtraReport) (decisions : List DecisionRecord) (log : List AuditEntry)
    (h : rep.status ≠ Status.SENT) :
    extra_report_public_post lang now form rep decisions log
      = (rep, decisions, log) := by
  unfold extra_report_public_post
  rw [auto_accept_of_not_sent now rep log h]
  simp [h]

/-- C7: a public decision POST on a report whose status after the escalation
check is not SENT (whether it was already terminal or the check has just
flipped it to APPROVED_AUTO) is rejected: the report, the decision table and
the audit log are exactly what the escalation check left, and when the
report was already off SENT before the request, nothing at all changes. -/
theorem C7_public_decision_rejected (lang : Lang) (now : Nat)
    (form : PublicForm) (rep : ExtraReport) (decisions : List DecisionRecord)
    (log : List AuditEntry)
    (h : (auto_accept_if_due now rep log).1.status ≠ Status.SENT) :
    extra_report_public_post lang now form rep decisions log
      = ((auto_accept_if_due now rep log).1, decisions,
         (auto_accept_if_due now rep log).2.1)
  ∧ (rep.status ≠ Status.SENT →
       extra_report_public_post lang now form rep decisions log
         = (rep, decisions, log)) := by
  constructor
  · unfold extra_report_public_post
    simp [h]
  · intro hr
    exact public_post_of_not_sent lang now form rep decisions log hr

/-- A concrete APPROVED report used by the C7 witness. -/
def w7rep : ExtraReport :=
  { id := 3, projectId := 1, recipientEmail := some "pm@example.com",
    token := some "tok7", status := Status.APPROVED, sentAt := some 0,
    decidedAt := some 10, decidedNote := some "ok", reportText := none,
    totalMinutesOverride := none, items := [], attachments := [] }

theorem C7_public_decision_rejected_witness :
    extra_report_public_post Lang.no 20
      { action := some "approve", note := none, signName := none,
        signatureData := none } w7rep [] []
      = (w7rep, [], []) := by
  have h := C7_public_decision_rejected Lang.no 20
    { action := some "approve", note := none, signName := none,
      signatureData := none } w7rep [] [] (by decide)
  exact h.2 (by decide)

/-- C10: on a SENT report that the escalation check leaves untouched, a
public POST whose action is anything other than approve or reject (missing,
empty or unrecognized) moves the report to COMMENTED; when no note was
supplied the default decided note is recorded; and COMMENTED being terminal,
any later public decision POST on the resulting report is a no-op. -/
theorem C10_fallthrough_comment (lang : Lang) (now : Nat) (form : PublicForm)
    (rep : ExtraReport) (decisions : List DecisionRecord)
    (log : List AuditEntry) (hs : rep.status = Status.SENT)
    (hnd : (auto_accept_if_due now rep log).2.2 = false)
    (ha : form.action ≠ some "approve") (hr : form.action ≠ some "reject") :
    (extra_report_public_post lang now form rep decisions log).1.status
        = Status.COMMENTED
  ∧ (form.note = none →
       (extra_report_public_post lang now form rep decisions log).1.decidedNote
         = some (tr lang "Kommentarer lagt til." "Dodano uwagi."))
  ∧ (∀ lang2 now2 form2 decisions2 log2,
       extra_report_public_post lang2 now2 form2
           (extra_report_public_post lang now form rep decisions log).1
           decisions2 log2
         = ((extra_report_public_post lang now form rep decisions log).1,
            decisions2, log2)) := by
  have hfix := auto_accept_not_fired now rep log hnd
  have hmain : (extra_report_public_post lang now form rep decisions log).1.status
      = Status.COMMENTED := by
    unfold extra_report_public_post
    rw [hfix]
    simp [hs, ha, hr]
  refine ⟨hmain, fun hn => ?_, fun lang2 now2 form2 decisions2 log2 => ?_⟩
  · unfold extra_report_public_post
    rw [hfix]
    simp [hs, ha, hr, hn]
  · exact public_post_of_not_sent lang2 now2 form2 _ decisions2 log2
      (by rw [hmain]; decide)

/-- A concrete SENT report used by the C10 witness. -/
def w10rep : ExtraReport :=
  { id := 4, projectId := 1, recipientEmail := some "pm@example.com",
    token := some "tok10", status := Status.SENT, sentAt := some 0,
    decidedAt := none, decidedNote := none, reportText := none,
    totalMinutesOverride := none, items := [], attachments := [] }

theorem C10_fallthrough_comment_witness :
    (extra_report_public_post Lang.no 10
      { action := none, note := none, signName := none,
        signatureData := none } w10rep [] []).1.status = Status.COMMENTED
  ∧ (extra_report_public_post Lang.no 10
      { action := none, note := none, signName := none,
        signatureData := none } w10rep [] []).1.decidedNote
        = some "Kommentarer lagt til." := by
  have h := C10_fallthrough_comment Lang.no 10
    { action := none, note := none, signName := none, signatureData := none }
    w10rep [] [] rfl (by decide) (by decide) (by decide)
  exact ⟨h.1, h.2.1 rfl⟩

/-- C9: a raster signature whose decoded PNG payload is below the 1200-byte
blank-signature threshold is discarded by _save_signature_png, and a public
decision submitted with such a signature on a SENT report with no prior
decision row is still recorded: a fresh DecisionRecord is appended with
decided_at = now and no signature reference, and the report leaves SENT. -/
theorem C9_blank_signature_discarded (lang : Lang) (now : Nat)
    (form : PublicForm) (rep : ExtraReport) (decisions : List DecisionRecord)
    (log : List AuditEntry) (d : DataUrl) (hs : rep.status = Status.SENT)
    (hnd : (auto_accept_if_due now rep log).2.2 = false)
    (hd : form.signatureData = some d)
    (hsmall : d.decodedLen < sig_blank_threshold)
    (hfresh : decisions.find? (fun x => x.reportId == rep.id) = none) :
    save_signature_png d = none
  ∧ (extra_report_public_post lang now form rep decisions log).2.1
      = decisions ++
        [{ reportId := rep.id, decidedAt := now,
           decidedName := form.signName.getD "",
           decidedNote :=
             (extra_report_public_post lang now form rep decisions log).1.decidedNote,
           signaturePng := none }]
  ∧ (extra_report_public_post lang now form rep decisions log).1.decidedAt
      = some now
  ∧ (extra_report_public_post lang now form rep decisions log).1.status
      ≠ Status.SENT := by
  have hfix := auto_accept_not_fired now rep log hnd
  have hsig : save_signature_png d = none := by
    unfold save_signature_png
    rcases d with ⟨hc, hp, ok, len, nm⟩
    cases hc <;> cases hp <;> cases ok <;> simp_all
  refine ⟨hsig, ?_, ?_, ?_⟩ <;>
  · unfold extra_report_public_post
    rw [hfix]
    by_cases hap : form.action = some "approve"
    · simp [hs, hd, hsig, hfresh, hap]
    · by_cases hrj : form.action = some "reject"
      · simp [hs, hd, hsig, hfresh, hap, hrj]
      · simp [hs, hd, hsig, hfresh, hap, hrj]

/-- A fresh SENT report with no prior decision, used by the C9 witness. -/
def w9rep : ExtraReport :=
  { id := 5, projectId := 1, recipientEmail := some "pm@example.com",
    token := some "tok9", status := Status.SENT, sentAt := some 0,
    decidedAt := none, decidedNote := none, reportText := none,
    totalMinutesOverride := none, items := [], attachments := [] }

/-- A well-formed PNG data URL whose decoded payload is 100 bytes. -/
def w9sig : DataUrl :=
  { hasComma := true, headerIsPng := true, decodeOk := true,
    decodedLen := 100, storedName := "sig_x.png" }

/-- The approve form carrying the tiny signature, used by the C9 witness. -/
def w9form : PublicForm :=
  { action := some "approve", note := none, signName := some "Jan Kowalski",
    signatureData := some w9sig }

theorem C9_blank_signature_discarded_witness :
    save_signature_png w9sig = none
  ∧ (extra_report_public_post Lang.no 10 w9form w9rep [] []).2.1
      = [{ reportId := 5, decidedAt := 10, decidedName := "Jan Kowalski",
           decidedNote :=
             (extra_report_public_post Lang.no 10 w9form w9rep [] []).1.decidedNote,
           signaturePng := none }]
  ∧ (extra_report_public_post Lang.no 10 w9form w9rep [] []).1.decidedAt
      = some 10 := by
  have h := C9_blank_signature_discarded Lang.no 10 w9form w9rep [] [] w9sig
    rfl (by decide) rfl (by decide) rfl
  exact ⟨h.1, h.2.1, h.2.2.1⟩

/-- The DRAFT report with one item used to exhibit the missing send audit. -/
def c1rep : ExtraReport :=
  { id := 6, projectId := 1, recipientEmail := some "pm@example.com",
    token := none, status := Status.DRAFT, sentAt := none, decidedAt := none,
    decidedNote := none, reportText := none, totalMinutesOverride := none,
    items := [{ requestId := 31, userName := "A", workDate := 0,
                minutes := 120, description := none }],
    attachments := [] }

/-- The send form used to exhibit the missing send audit. -/
def c1form : AdminForm :=
  { action := some "send", reportText := none,
    recipientEmail := some "pm@example.com", totalOverride := none }

/-- C1: evaluation at the failing input. A send on a DRAFT report with a
recipient succeeds (status becomes SENT, sent_at and token are set), yet the
audit log is returned unchanged and empty: the send branch of
admin_extra_report_view never calls _extra_audit, so no entry with action
code sent is ever appended, although the ExtraReportAudit schema comment
documents sent as an action code. -/
theorem C1_send_appends_no_audit :
    (admin_extra_report_view_post 1000 c1form "freshtok" c1rep []).1.status
        = Status.SENT
  ∧ (admin_extra_report_view_post 1000 c1form "freshtok" c1rep []).1.sentAt
        = some 1000
  ∧ (admin_extra_report_view_post 1000 c1form "freshtok" c1rep []).2 = [] := by
  refine ⟨rfl, rfl, rfl⟩

/-- The terminal APPROVED report used by the C2 counterexample. -/
def c2rep : ExtraReport :=
  { id := 7, projectId := 1, recipientEmail := some "pm@example.com",
    token := some "tok2", status := Status.APPROVED, sentAt := some 100,
    decidedAt := some 200, decidedNote := some "ok", reportText := none,
    totalMinutesOverride := none, items := [], attachments := [] }

/-- The send form used by the C2 counterexample. -/
def c2form : AdminForm :=
  { action := some "send", reportText := none,
    recipientEmail := some "pm@example.com", totalOverride := none }

/-- C2 counterexample: the send action succeeds on a terminal APPROVED report
that has zero items, returning it to SENT with a fresh sent_at. So send is
not restricted to DRAFT, not guarded by a nonempty item list, and not
irreversible as the claim states. -/
theorem C2_counterexample :
    (admin_extra_report_view_post 5000 c2form "fresh" c2rep []).1.status
        = Status.SENT
  ∧ (admin_extra_report_view_post 5000 c2form "fresh" c2rep []).1.sentAt
        = some 5000
  ∧ c2rep.status = Status.APPROVED
  ∧ c2rep.items = [] := by
  refine ⟨rfl, rfl, rfl, rfl⟩

/-- C2 amended: the send branch is guarded only by the presence of a
recipient in the submitted form: from any state, item list empty or not, a
send sets status to SENT and sent_at to now (so the transition is neither
exactly-once nor irreversible), while the token is generated only if absent;
without a recipient the send branch itself changes nothing beyond the
unconditional edit. -/
theorem C2_amended_send (now : Nat) (form : AdminForm) (freshToken : String)
    (rep : ExtraReport) (log : List AuditEntry)
    (hact : form.action = some "send")
    (hnd : (auto_accept_if_due now rep log).2.2 = false) :
    (form.recipientEmail ≠ none →
       (admin_extra_report_view_post now form freshToken rep log).1.status
           = Status.SENT
     ∧ (admin_extra_report_view_post now form freshToken rep log).1.sentAt
           = some now
     ∧ (admin_extra_report_view_post now form freshToken rep log).1.token
           = some (rep.token.getD freshToken))
  ∧ (form.recipientEmail = none →
       admin_extra_report_view_post now form freshToken rep log
         = (apply_admin_edit form rep, log)) := by
  have hfix := auto_accept_not_fired now rep log hnd
  unfold admin_extra_report_view_post
  rw [hfix]
  constructor
  · intro hrec
    rcases hre : form.recipientEmail with _ | e
    · exact absurd hre hrec
    · simp [hact, apply_admin_edit, hre]
  · intro hre
    simp [hact, apply_admin_edit, hre]

/-- A DRAFT report without a token, used by the C2 amended witness. -/
def w2rep : ExtraReport :=
  { id := 8, projectId := 1, recipientEmail := none, token := none,
    status := Status.DRAFT, sentAt := none, decidedAt := none,
    decidedNote := none, reportText := none, totalMinutesOverride := none,
    items := [], attachments := [] }

theorem C2_amended_send_witness :
    (admin_extra_report_view_post 42 c2form "freshtok" w2rep []).1.status
        = Status.SENT
  ∧ (admin_extra_report_view_post 42 c2form "freshtok" w2rep []).1.token
        = some "freshtok" := by
  have h := (C2_amended_send 42 c2form "freshtok" w2rep [] rfl (by decide)).1
    (by decide)
  exact ⟨h.1, h.2.2⟩

/-- The terminal APPROVED report used by the C6 counterexample. -/
def c6rep : ExtraReport :=
  { id := 9, projectId := 1, recipientEmail := some "old@example.com",
    token := some "tok6", status := Status.APPROVED, sentAt := some 100,
    decidedAt := some 200, decidedNote := some "ok",
    reportText := some "old body", totalMinutesOverride := none,
    items := [], attachments := [] }

/-- The save form used by the C6 counterexample. -/
def c6form : AdminForm :=
  { action := some "save", reportText := some "new body",
    recipientEmail := some "new@example.com", totalOverride := some 90 }

/-- C6 counterexample: on a terminally decided (APPROVED) report a save POST
still applies all three edits (body, recipient, total-override), where the
claim states such edits are not applied after a terminal decision. -/
theorem C6_counterexample :
    (admin_extra_report_view_post 5000 c6form "f" c6rep []).1.reportText
        = some "new body"
  ∧ (admin_extra_report_view_post 5000 c6form "f" c6rep []).1.recipientEmail
        = some "new@example.com"
  ∧ (admin_extra_report_view_post 5000 c6form "f" c6rep []).1.totalMinutesOverride
        = some 90
  ∧ c6rep.status = Status.APPROVED := by
  refine ⟨rfl, rfl, rfl, rfl⟩

/-- C6 amended: the POST branch applies the body, recipient and
total-override edits in every state, terminal states included; the save
action itself never changes the status field (only the escalation check
running before the edit can), and on a report that is not SENT a save
changes neither the status nor the audit log. -/
theorem C6_amended_edit (now : Nat) (form : AdminForm) (freshToken : String)
    (rep : ExtraReport) (log : List AuditEntry)
    (hact : form.action.getD "save" ≠ "send") :
    ((admin_extra_report_view_post now form freshToken rep log).1.reportText
        = form.reportText
   ∧ (admin_extra_report_view_post now form freshToken rep log).1.recipientEmail
        = form.recipientEmail
   ∧ (admin_extra_report_view_post now form freshToken rep log).1.totalMinutesOverride
        = form.totalOverride)
  ∧ (admin_extra_report_view_post now form freshToken rep log).1.status
      = (auto_accept_if_due now rep log).1.status
  ∧ (rep.status ≠ Status.SENT →
       (admin_extra_report_view_post now form freshToken rep log).1.status
           = rep.status
     ∧ (admin_extra_report_view_post now form freshToken rep log).2 = log) := by
  have h1 : admin_extra_report_view_post now form freshToken rep log
      = (apply_admin_edit form (auto_accept_if_due now rep log).1,
         (auto_accept_if_due now rep log).2.1) := by
    unfold admin_extra_report_view_post
    simp [hact]
  rw [h1]
  refine ⟨⟨rfl, rfl, rfl⟩, rfl, fun hns => ?_⟩
  rw [auto_accept_of_not_sent now rep log hns]
  exact ⟨rfl, rfl⟩

theorem C6_amended_edit_witness :
    (admin_extra_report_view_post 5000
        { action := none, reportText := some "t", recipientEmail := none,
          totalOverride := none } "f" c6rep []).1.reportText = some "t"
  ∧ (admin_extra_report_view_post 5000
        { action := none, reportText := some "t", recipientEmail := none,
          totalOverride := none } "f" c6rep []).1.status = Status.APPROVED := by
  have h := C6_amended_edit 5000
    { action := none, reportText := some "t", recipientEmail := none,
      totalOverride := none } "f" c6rep [] (by decide)
  exact ⟨h.1.1, (h.2.2 (by decide)).1⟩

/-- A CANCELED line item used by the C4 counterexample. -/
def c4req : ExtraRequest :=
  { id := 11, projectId := 7, userName := "B", workDate := 0, minutes := 60,
    description := none, status := ReqStatus.CANCELED }

/-- C4 counterexample: a CANCELED line item is not filtered out. Building a
report from this single id succeeds where the claim requires the id to be
excluded and the build to fail with NoEligibleItems: the handler only drops
ids whose status is INCLUDED (or whose project differs), so the CANCELED
item is snapshotted into a DRAFT report and flipped to INCLUDED. -/
theorem C4_counterexample :
    admin_extra_report_create [c4req] (some 7) none none [11] none 1
      = CreateResult.created
          { id := 1, projectId := 7, recipientEmail := none, token := none,
            status := Status.DRAFT, sentAt := none, decidedAt := none,
            decidedNote := none, reportText := none,
            totalMinutesOverride := none,
            items := [snapshot_item c4req], attachments := [] }
          [{ c4req with status := ReqStatus.INCLUDED }] := by
  decide

/-- C4 amended: the builder filters out exactly the found ids whose status is
INCLUDED or whose project differs from the resolved project id (so NEW and
CANCELED items both survive); if no request survives, the build fails with
the no-eligible outcome and creates no report; otherwise it creates a DRAFT
report with one snapshot per surviving request, in store order, and flips
exactly the surviving requests to INCLUDED in the updated store. -/
theorem C4_amended_builder (store : List ExtraRequest)
    (projectIdField : Option Nat) (recipientEmail reportText : Option String)
    (ids : List Nat) (defaultContact : Option String) (newId : Nat)
    (first : ExtraRequest) (rest : List ExtraRequest) (hids : ids ≠ [])
    (hreqs : store.filter (fun r => decide (r.id ∈ ids)) = first :: rest) :
    (∀ r, r ∈ (first :: rest).filter (fun r =>
         decide (r.projectId = projectIdField.getD first.projectId
                 ∧ r.status ≠ ReqStatus.INCLUDED))
       ↔ r ∈ store ∧ r.id ∈ ids
           ∧ r.projectId = projectIdField.getD first.projectId
           ∧ r.status ≠ ReqStatus.INCLUDED)
  ∧ ((first :: rest).filter (fun r =>
         decide (r.projectId = projectIdField.getD first.projectId
                 ∧ r.status ≠ ReqStatus.INCLUDED)) = [] →
       admin_extra_report_create store projectIdField recipientEmail
         reportText ids defaultContact newId = CreateResult.noEligible)
  ∧ (∀ s srest, (first :: rest).filter (fun r =>
         decide (r.projectId = projectIdField.getD first.projectId
                 ∧ r.status ≠ ReqStatus.INCLUDED)) = s :: srest →
       admin_extra_report_create store projectIdField recipientEmail
         reportText ids defaultContact newId
         = CreateResult.created
             { id := newId, projectId := projectIdField.getD first.projectId,
               recipientEmail := match recipientEmail with
                 | some e => some e
                 | none => defaultContact,
               token := none, status := Status.DRAFT, sentAt := none,
               decidedAt := none, decidedNote := none,
               reportText := reportText, totalMinutesOverride := none,
               items := (s :: srest).map snapshot_item, attachments := [] }
             (store.map (fun r =>
               if r.id ∈ ids
                  ∧ r.projectId = projectIdField.getD first.projectId
                  ∧ r.status ≠ ReqStatus.INCLUDED
               then { r with status := ReqStatus.INCLUDED } else r))) := by
  refine ⟨fun r => ?_, fun hsurv => ?_, fun s srest hsurv => ?_⟩
  · rw [← hreqs]
    simp only [List.mem_filter, decide_eq_true_eq]
    tauto
  · unfold admin_extra_report_create
    rw [if_neg hids, hreqs]
    dsimp only
    rw [hsurv]
    simp
  · unfold admin_extra_report_create
    rw [if_neg hids, hreqs]
    dsimp only
    rw [hsurv]
    simp

/-- A NEW request used by the C4 amended witness. -/
def w4a : ExtraRequest :=
  { id := 41, projectId := 7, userName := "A", workDate := 0, minutes := 120,
    description := none, status := ReqStatus.NEW }

/-- An already INCLUDED request used by the C4 amended witness. -/
def w4b : ExtraRequest :=
  { id := 42, projectId := 7, userName := "B", workDate := 0, minutes := 90,
    description := none, status := ReqStatus.INCLUDED }

/-- Store of one NEW and one INCLUDED request for the C4 amended witness. -/
def w4store : List ExtraRequest := [w4a, w4b]

theorem C4_amended_builder_witness :
    admin_extra_report_create w4store (some 7) none none [41, 42] none 2
      = CreateResult.created
          { id := 2, projectId := 7, recipientEmail := none, token := none,
            status := Status.DRAFT, sentAt := none, decidedAt := none,
            decidedNote := none, reportText := none,
            totalMinutesOverride := none,
            items := [{ requestId := 41, userName := "A", workDate := 0,
                        minutes := 120, description := none }],
            attachments := [] }
          [{ id := 41, projectId := 7, userName := "A", workDate := 0,
             minutes := 120, description := none,
             status := ReqStatus.INCLUDED },
           { id := 42, projectId := 7, userName := "B", workDate := 0,
             minutes := 90, description := none,
             status := ReqStatus.INCLUDED }] := by
  have h := (C4_amended_builder w4store (some 7) none none [41, 42] none 2
    w4a [w4b] (by decide) (by decide)).2.2 w4a [] (by decide)
  exact h

/-- The INCLUDED source request of the report in the C5 counterexample. -/
def c5req : ExtraRequest :=
  { id := 21, projectId := 1, userName := "C", workDate := 0, minutes := 30,
    description := none, status := ReqStatus.INCLUDED }

/-- A decided report holding one snapshot of c5req. -/
def c5rep : ExtraReport :=
  { id := 12, projectId := 1, recipientEmail := some "pm@example.com",
    token := some "tok5", status := Status.APPROVED, sentAt := some 100,
    decidedAt := some 200, decidedNote := some "ok", reportText := none,
    totalMinutesOverride := none,
    items := [{ requestId := 21, userName := "C", workDate := 0,
                minutes := 30, description := none }],
    attachments := [{ storedFilename := "a.pdf" }] }

/-- The DecisionRecord of c5rep. -/
def c5dec : DecisionRecord :=
  { reportId := 12, decidedAt := 200, decidedName := "Jan",
    decidedNote := some "ok", signaturePng := none }

/-- C5 counterexample: deleting a report that has a DecisionRecord removes
the report (with its items and attachments) and restores the referenced
request to NEW, but the decision table is returned unchanged: the handler
fetches the ExtraReportDecision row and never deletes it, so there is no
cascade deletion of the DecisionRecord as the claim states. -/
theorem C5_counterexample :
    admin_extra_report_delete c5rep [c5req] [c5rep] [c5dec]
      = ([], [{ c5req with status := ReqStatus.NEW }], [c5dec]) := by
  decide

/-- C5 amended: deletion is permitted from any state; every request whose id
is referenced (with a nonzero id) by the report items is set back to NEW in
the store so a later build can re-claim it; the report, together with its
embedded items and attachments, is removed from the report list; and the
decision table is returned unchanged, so the DecisionRecord survives. -/
theorem C5_amended_delete (rep : ExtraReport) (store : List ExtraRequest)
    (reports : List ExtraReport) (decisions : List DecisionRecord) :
    ((admin_extra_report_delete rep store reports decisions).1
        = reports.filter (fun r => decide (r.id ≠ rep.id)))
  ∧ (∀ q ∈ (admin_extra_report_delete rep store reports decisions).2.1,
       q.id ∈ (rep.items.filter (fun it => it.requestId ≠ 0)).map
           (fun it => it.requestId) →
         q.status = ReqStatus.NEW)
  ∧ ((admin_extra_report_delete rep store reports decisions).2.2 = decisions)
  ∧ (∀ r ∈ (admin_extra_report_delete rep store reports decisions).1,
       r.id ≠ rep.id) := by
  refine ⟨rfl, fun q hq hqid => ?_, rfl, fun r hr => ?_⟩
  · unfold admin_extra_report_delete at hq
    simp only [List.mem_map] at hq
    obtain ⟨r, hr, hfr⟩ := hq
    split at hfr
    next hcond =>
      rw [← hfr]
    next hcond =>
      rw [← hfr] at hqid
      simp only [List.mem_map] at hqid
      exact absurd hqid hcond
  · unfold admin_extra_report_delete at hr
    simp only [List.mem_filter, decide_eq_true_eq] at hr
    exact hr.2

theorem C5_amended_delete_witness :
    (admin_extra_report_delete c5rep [c5req] [c5rep] [c5dec]).2.2 = [c5dec]
  ∧ ({ c5req with status := ReqStatus.NEW } : ExtraRequest).status
      = ReqStatus.NEW := by
  have h := C5_amended_delete c5rep [c5req] [c5rep] [c5dec]
  exact ⟨h.2.2.1, rfl⟩

end ExtraReports
